import Mathlib

/-!
Verification of the protocol lifecycle engine of the mtsbatalha/file-server
repository, via a shallow embedding of the Python source into Lean 4.

The embedding covers:
* the persisted `Protocol` record (src/backend/api/models/user.py),
* the protocol service layer (src/backend/api/services/protocol_service.py),
* the lifecycle routes and their background tasks
  (src/backend/api/routes/protocols.py),
* the installer registry and the installer plugin contract
  (src/backend/installers/base.py and the concrete installer modules),
* the command executor helper `run_command` (src/backend/installers/base.py),
* the subprocess path-resolution patch (src/backend/core/subprocess_patch.py).

Installer plugins perform operating-system effects; a single run of a plugin
method is modelled by its observable outcome: either a returned value or a
raised exception, encoded as `Except String`.  Timestamps are modelled as
natural numbers supplied explicitly at each persisting operation.
-/

namespace FileServer

/-- Protocol service status, from `ProtocolStatus` in
src/backend/api/models/user.py. -/
inductive ProtocolStatus where
  | RUNNING
  | STOPPED
  | ERROR
  | INSTALLING
  | UNINSTALLED
deriving DecidableEq, Repr

/-- Protocol-specific configuration: an opaque JSON key/value map, modelled as
an association list of strings. -/
abbrev Config := List (String × String)

/-- The persisted `Protocol` record, from the `Protocol` model in
src/backend/api/models/user.py.  The `id` primary key is omitted: all service
operations are modelled directly on the record they look up.  Timestamps are
natural numbers. -/
structure Protocol where
  name : String
  display_name : String
  is_enabled : Bool
  is_installed : Bool
  port : Option Nat
  ssl_enabled : Bool
  config_json : Option Config
  status : ProtocolStatus
  error_message : Option String
  installed_at : Option Nat
  updated_at : Nat
deriving DecidableEq, Repr

/-- The `update_protocol_status` service function
(src/backend/api/services/protocol_service.py, lines 91-119).  Optional
keyword arguments are modelled as `Option` parameters; the Python truthiness
test `if status == ProtocolStatus.RUNNING and is_installed` holds exactly when
the `is_installed` argument is `True`, i.e. `some true`.  The `updated_at`
column is bumped on commit. -/
def update_protocol_status (p : Protocol) (status : ProtocolStatus)
    (is_installed is_enabled : Option Bool) (error_message : Option String)
    (now : Nat) : Protocol :=
  let p1 := { p with status := status }
  let p2 := match is_installed with
    | some b => { p1 with is_installed := b }
    | none => p1
  let p3 := match is_enabled with
    | some b => { p2 with is_enabled := b }
    | none => p2
  let p4 := { p3 with error_message := error_message }
  let p5 := if status = ProtocolStatus.RUNNING ∧ is_installed = some true then
      { p4 with installed_at := some now }
    else p4
  { p5 with updated_at := now }

/-- The `update_protocol_config` service function
(src/backend/api/services/protocol_service.py, lines 122-143): `config_json`
is assigned unconditionally, `port` and `ssl_enabled` only when the argument
is not `None`. -/
def update_protocol_config_svc (p : Protocol) (config : Option Config)
    (port : Option Nat) (ssl_enabled : Option Bool) (now : Nat) : Protocol :=
  let p1 := { p with config_json := config }
  let p2 := match port with
    | some v => { p1 with port := some v }
    | none => p1
  let p3 := match ssl_enabled with
    | some b => { p2 with ssl_enabled := b }
    | none => p2
  { p3 with updated_at := now }

/-- A freshly seeded protocol row: column defaults from the model
(`is_enabled=false`, `is_installed=false`, `ssl_enabled=false`,
`config_json=None`, `error_message=None`, `installed_at=None`) together with
the per-protocol seed data of `DEFAULT_PROTOCOLS`.  The creation timestamp is
modelled as 0. -/
def defaultProtocol (name display_name : String) (port : Nat) : Protocol :=
  { name := name
    display_name := display_name
    is_enabled := false
    is_installed := false
    port := some port
    ssl_enabled := false
    config_json := none
    status := ProtocolStatus.UNINSTALLED
    error_message := none
    installed_at := none
    updated_at := 0 }

/-- The seeded catalog `DEFAULT_PROTOCOLS`
(src/backend/api/services/protocol_service.py, lines 15-58). -/
def DEFAULT_PROTOCOLS : List Protocol :=
  [ defaultProtocol "ftp" "FTP/FTPS" 21
  , defaultProtocol "sftp" "SFTP" 22
  , defaultProtocol "nfs" "NFS" 2049
  , defaultProtocol "smb" "SMB/CIFS" 445
  , defaultProtocol "webdav" "WebDAV" 8080
  , defaultProtocol "s3" "S3 (MinIO)" 9000
  , defaultProtocol "nextcloud" "NextCloud" 8081 ]

/-- The seeded `ftp` row. -/
def ftpSeed : Protocol := defaultProtocol "ftp" "FTP/FTPS" 21

/-- Status information returned by a plugin's `get_status`
(src/backend/installers/base.py): a dictionary with `is_running` and optional
`pid` / `uptime_seconds` entries. -/
structure StatusInfo where
  is_running : Bool
  pid : Option Nat
  uptime_seconds : Option Nat
deriving DecidableEq, Repr

/-- One run of an installer plugin (a subclass of `ProtocolInstaller`,
src/backend/installers/base.py): each capability is modelled by its observable
outcome in that run — a returned value (`Except.ok`) or a raised exception
carrying its message (`Except.error`).  `configure` receives the configuration
argument the caller passes, which in the routes can be a dictionary or
`None`. -/
structure Installer where
  detect_existing : Except String (Bool × Option String)
  install_packages : Except String Bool
  configure : Option Config → Except String Bool
  start_service : Except String Bool
  stop_service : Except String Bool
  restart_service : Except String Bool
  get_status : Except String StatusInfo
  uninstall : Except String Bool

/-- Observable plugin invocations, used to trace which capabilities an
orchestrator operation calls, in order. -/
inductive PluginCall where
  | detect
  | installPackages
  | configureCall
  | startService
  | stopService
  | restartService
  | statusQuery
  | uninstallCall
deriving DecidableEq, Repr

/-- HTTP-level outcome of a synchronous route: a success body message or an
`HTTPException` with status code and detail. -/
inductive ApiResp where
  | ok (msg : String)
  | httpError (code : Nat) (detail : String)
deriving DecidableEq, Repr

/-- The `install_protocol` route (src/backend/api/routes/protocols.py,
lines 71-143) up to queueing the background task, acting on an existing
record: if `is_installed` is true it returns a no-op success without queueing
a job; otherwise it persists `INSTALLING` and queues the install task.  The
boolean in the result records whether a background job was queued. -/
def install_protocol_route (p : Protocol) (now : Nat) :
    Protocol × ApiResp × Bool :=
  if p.is_installed then
    (p, ApiResp.ok (p.display_name ++ " is already installed"), false)
  else
    (update_protocol_status p ProtocolStatus.INSTALLING none none none now,
     ApiResp.ok ("Installation of " ++ p.display_name ++ " started in background"),
     true)

/-- The `install_task` background job (src/backend/api/routes/protocols.py,
lines 92-139), acting on the record as persisted when the job runs.  Any
exception raised by a plugin step is caught by the job's handler and persisted
as `ERROR`.  The result carries the persisted record and the trace of plugin
calls made. -/
def install_task (inst : Installer) (p : Protocol) (now : Nat) :
    Protocol × List PluginCall :=
  match inst.detect_existing with
  | Except.error _ =>
      (update_protocol_status p ProtocolStatus.ERROR none none none now,
       [PluginCall.detect])
  | Except.ok (is_installed, _) =>
    if is_installed then
      (update_protocol_status p ProtocolStatus.STOPPED (some true) none none now,
       [PluginCall.detect])
    else
      match inst.install_packages with
      | Except.error _ =>
          (update_protocol_status p ProtocolStatus.ERROR none none none now,
           [PluginCall.detect, PluginCall.installPackages])
      | Except.ok false =>
          (update_protocol_status p ProtocolStatus.ERROR none none none now,
           [PluginCall.detect, PluginCall.installPackages])
      | Except.ok true =>
        match inst.configure (some (p.config_json.getD [])) with
        | Except.error _ =>
            (update_protocol_status p ProtocolStatus.ERROR none none none now,
             [PluginCall.detect, PluginCall.installPackages, PluginCall.configureCall])
        | Except.ok false =>
            (update_protocol_status p ProtocolStatus.ERROR none none none now,
             [PluginCall.detect, PluginCall.installPackages, PluginCall.configureCall])
        | Except.ok true =>
          match inst.start_service with
          | Except.error _ =>
              (update_protocol_status p ProtocolStatus.ERROR none none none now,
               [PluginCall.detect, PluginCall.installPackages,
                PluginCall.configureCall, PluginCall.startService])
          | Except.ok true =>
              (update_protocol_status p ProtocolStatus.RUNNING
                 (some true) (some true) none now,
               [PluginCall.detect, PluginCall.installPackages,
                PluginCall.configureCall, PluginCall.startService])
          | Except.ok false =>
              (update_protocol_status p ProtocolStatus.STOPPED
                 (some true) (some false) none now,
               [PluginCall.detect, PluginCall.installPackages,
                PluginCall.configureCall, PluginCall.startService])

/-- The `start_protocol` route (src/backend/api/routes/protocols.py,
lines 146-171): precondition `is_installed`, then `start_service`; on success
persists `RUNNING` with `is_enabled=true`, otherwise no state change and an
HTTP 500. -/
def start_protocol_route (inst : Installer) (p : Protocol) (now : Nat) :
    Protocol × ApiResp :=
  if p.is_installed = false then
    (p, ApiResp.httpError 400 "Protocol not installed")
  else
    match inst.start_service with
    | Except.ok true =>
        (update_protocol_status p ProtocolStatus.RUNNING none (some true) none now,
         ApiResp.ok (p.display_name ++ " started successfully"))
    | Except.ok false =>
        (p, ApiResp.httpError 500 "Failed to start service")
    | Except.error e =>
        (p, ApiResp.httpError 500 e)

/-- The `stop_protocol` route (src/backend/api/routes/protocols.py,
lines 174-199). -/
def stop_protocol_route (inst : Installer) (p : Protocol) (now : Nat) :
    Protocol × ApiResp :=
  if p.is_installed = false then
    (p, ApiResp.httpError 400 "Protocol not installed")
  else
    match inst.stop_service with
    | Except.ok true =>
        (update_protocol_status p ProtocolStatus.STOPPED none (some false) none now,
         ApiResp.ok (p.display_name ++ " stopped successfully"))
    | Except.ok false =>
        (p, ApiResp.httpError 500 "Failed to stop service")
    | Except.error e =>
        (p, ApiResp.httpError 500 e)

/-- The `restart_protocol` route (src/backend/api/routes/protocols.py,
lines 275-300). -/
def restart_protocol_route (inst : Installer) (p : Protocol) (now : Nat) :
    Protocol × ApiResp :=
  if p.is_installed = false then
    (p, ApiResp.httpError 400 "Protocol not installed")
  else
    match inst.restart_service with
    | Except.ok true =>
        (update_protocol_status p ProtocolStatus.RUNNING none (some true) none now,
         ApiResp.ok (p.display_name ++ " restarted successfully"))
    | Except.ok false =>
        (p, ApiResp.httpError 500 "Failed to restart service")
    | Except.error e =>
        (p, ApiResp.httpError 500 e)

/-- The `uninstall_protocol` route (src/backend/api/routes/protocols.py,
lines 303-350) up to queueing the background task: if the protocol is not
installed it returns a no-op message without queueing a job; otherwise it
persists `INSTALLING` (the status is reused for uninstalling) and queues the
uninstall task. -/
def uninstall_protocol_route (p : Protocol) (now : Nat) :
    Protocol × ApiResp × Bool :=
  if p.is_installed = false then
    (p, ApiResp.ok (p.display_name ++ " is not installed"), false)
  else
    (update_protocol_status p ProtocolStatus.INSTALLING none none none now,
     ApiResp.ok ("Uninstallation of " ++ p.display_name ++ " started in background"),
     true)

/-- The `uninstall_task` background job (src/backend/api/routes/protocols.py,
lines 324-346): `stop_service` first (result ignored, exceptions persist
`ERROR`), then `uninstall`; success persists `UNINSTALLED` with
`is_installed=false`, `is_enabled=false`, failure persists `ERROR`. -/
def uninstall_task (inst : Installer) (p : Protocol) (now : Nat) :
    Protocol × List PluginCall :=
  match inst.stop_service with
  | Except.error _ =>
      (update_protocol_status p ProtocolStatus.ERROR none none none now,
       [PluginCall.stopService])
  | Except.ok _ =>
    match inst.uninstall with
    | Except.ok true =>
        (update_protocol_status p ProtocolStatus.UNINSTALLED
           (some false) (some false) none now,
         [PluginCall.stopService, PluginCall.uninstallCall])
    | Except.ok false =>
        (update_protocol_status p ProtocolStatus.ERROR none none none now,
         [PluginCall.stopService, PluginCall.uninstallCall])
    | Except.error _ =>
        (update_protocol_status p ProtocolStatus.ERROR none none none now,
         [PluginCall.stopService, PluginCall.uninstallCall])

/-- The `ProtocolUpdate` request body (src/backend/api/schemas/schemas.py):
every field optional. -/
structure ProtocolUpdate where
  config_json : Option Config
  port : Option Nat
  ssl_enabled : Option Bool
deriving DecidableEq, Repr

/-- Python `a or b` on an optional dictionary: an empty dictionary is falsy,
so `config_update.config_json or protocol.config_json` falls back to the
stored value when the request carries no configuration or an empty one. -/
def pyOrConfig (a b : Option Config) : Option Config :=
  match a with
  | some c => if c.isEmpty then b else some c
  | none => b

/-- The `update_protocol_config` route (src/backend/api/routes/protocols.py,
lines 240-272).  The merged configuration, port and ssl flag are persisted
first via the service function; then, only if the record is installed and its
persisted status is `RUNNING`, the plugin's `configure` is called with the
merged configuration and, when it returns true, `restart_service` is called
with its result ignored.  A false `configure` raises an HTTP 500 which the
surrounding handler rewraps; either way no status transition is persisted.
The result carries the persisted record, the HTTP outcome, and the trace of
plugin calls. -/
def update_protocol_config_route (inst : Installer) (p : Protocol)
    (upd : ProtocolUpdate) (now : Nat) :
    Protocol × Except String Protocol × List PluginCall :=
  let config := pyOrConfig upd.config_json p.config_json
  let port := match upd.port with
    | some v => some v
    | none => p.port
  let ssl_enabled := match upd.ssl_enabled with
    | some b => b
    | none => p.ssl_enabled
  let updated := update_protocol_config_svc p config port (some ssl_enabled) now
  if p.is_installed ∧ p.status = ProtocolStatus.RUNNING then
    match inst.configure config with
    | Except.ok true =>
      match inst.restart_service with
      | Except.ok _ =>
          (updated, Except.ok updated,
           [PluginCall.configureCall, PluginCall.restartService])
      | Except.error e =>
          (updated, Except.error ("Failed to reconfigure: " ++ e),
           [PluginCall.configureCall, PluginCall.restartService])
    | Except.ok false =>
        (updated,
         Except.error "Failed to reconfigure: 500: Failed to apply new configuration",
         [PluginCall.configureCall])
    | Except.error e =>
        (updated, Except.error ("Failed to reconfigure: " ++ e),
         [PluginCall.configureCall])
  else
    (updated, Except.ok updated, [])

/-- The response body of the status route
(src/backend/api/schemas/schemas.py, `ProtocolStatusResponse`). -/
structure StatusResponse where
  protocol_name : String
  status : ProtocolStatus
  is_running : Bool
  pid : Option Nat
  uptime_seconds : Option Nat
  error_message : Option String
  port : Option Nat
deriving DecidableEq, Repr

/-- The `get_protocol_status` route (src/backend/api/routes/protocols.py,
lines 202-237): when the record's `is_installed` is false it answers
`UNINSTALLED` / not running without consulting the plugin, regardless of the
persisted status; otherwise it merges the plugin's status dictionary with the
persisted status, and converts a raised exception into an `ERROR` response
with the exception text. -/
def get_protocol_status_route (inst : Installer) (p : Protocol) :
    StatusResponse :=
  if p.is_installed = false then
    { protocol_name := p.name
      status := ProtocolStatus.UNINSTALLED
      is_running := false
      pid := none
      uptime_seconds := none
      error_message := none
      port := p.port }
  else
    match inst.get_status with
    | Except.ok si =>
        { protocol_name := p.name
          status := p.status
          is_running := si.is_running
          pid := si.pid
          uptime_seconds := si.uptime_seconds
          error_message := none
          port := p.port }
    | Except.error e =>
        { protocol_name := p.name
          status := ProtocolStatus.ERROR
          is_running := false
          pid := none
          uptime_seconds := none
          error_message := some e
          port := p.port }

/-- The installer classes referenced by the registry map
(src/backend/api/routes/protocols.py, lines 27-35).  `FTPInstaller`,
`SFTPInstaller`, `NFSInstaller`, `SMBInstaller`, `S3Installer` are defined
under src/backend/installers/.

Modelled from the spec: the modules `backend.installers.webdav` and
`backend.installers.nextcloud` are referenced by the registry but are not
under src/; per the spec (component overview and edge policy of the plugin
contract) WebDAV and NextCloud are plugin variants that satisfy the full
capability set, as stubs reporting failure / not running. -/
inductive InstallerClass where
  | FTPInstaller
  | SFTPInstaller
  | NFSInstaller
  | SMBInstaller
  | WebDAVInstaller
  | S3Installer
  | NextCloudInstaller
deriving DecidableEq, Repr

/-- The static `installer_map` of `get_protocol_installer`
(src/backend/api/routes/protocols.py, lines 27-35): protocol identifier to
dotted module-and-class path. -/
def installer_map : List (String × String) :=
  [ ("ftp", "backend.installers.ftp.FTPInstaller")
  , ("sftp", "backend.installers.sftp.SFTPInstaller")
  , ("nfs", "backend.installers.nfs.NFSInstaller")
  , ("smb", "backend.installers.smb.SMBInstaller")
  , ("webdav", "backend.installers.webdav.WebDAVInstaller")
  , ("s3", "backend.installers.s3.S3Installer")
  , ("nextcloud", "backend.installers.nextcloud.NextCloudInstaller") ]

/-- Dynamic import of a dotted class path, as performed by
`get_protocol_installer`.  The five classes under src/ import to themselves;
the WebDAV and NextCloud classes are modelled from the spec as importable
stub plugins (see `InstallerClass`).  Any other path would fail the import
with a generic lookup error. -/
def import_installer_class (path : String) : Except String InstallerClass :=
  if path = "backend.installers.ftp.FTPInstaller" then
    Except.ok InstallerClass.FTPInstaller
  else if path = "backend.installers.sftp.SFTPInstaller" then
    Except.ok InstallerClass.SFTPInstaller
  else if path = "backend.installers.nfs.NFSInstaller" then
    Except.ok InstallerClass.NFSInstaller
  else if path = "backend.installers.smb.SMBInstaller" then
    Except.ok InstallerClass.SMBInstaller
  else if path = "backend.installers.webdav.WebDAVInstaller" then
    Except.ok InstallerClass.WebDAVInstaller
  else if path = "backend.installers.s3.S3Installer" then
    Except.ok InstallerClass.S3Installer
  else if path = "backend.installers.nextcloud.NextCloudInstaller" then
    Except.ok InstallerClass.NextCloudInstaller
  else
    Except.error ("ModuleNotFoundError: " ++ path)

/-- The registry `get_protocol_installer`
(src/backend/api/routes/protocols.py, lines 25-46): a name outside the map
fails fast with the typed `ValueError` message, a name in the map is resolved
by dynamic import of its class path. -/
def get_protocol_installer (protocol_name : String) :
    Except String InstallerClass :=
  match installer_map.lookup protocol_name with
  | none => Except.error ("Unknown protocol: " ++ protocol_name)
  | some module_path => import_installer_class module_path

/-- The capability set of the plugin contract: the abstract methods of
`ProtocolInstaller` (src/backend/installers/base.py). -/
inductive Capability where
  | detectExisting
  | installPackages
  | configureCap
  | startService
  | stopService
  | restartService
  | getStatus
  | uninstallCap
deriving DecidableEq, Repr

/-- The full capability set every plugin must implement. -/
def fullCapabilitySet : List Capability :=
  [ Capability.detectExisting, Capability.installPackages,
    Capability.configureCap, Capability.startService, Capability.stopService,
    Capability.restartService, Capability.getStatus, Capability.uninstallCap ]

/-- The capabilities each installer class defines, transcribed from the
method definitions in its source module: every class under
src/backend/installers/ defines all eight abstract methods (the NFS one as a
stub), and the WebDAV / NextCloud classes are modelled from the spec as full
stubs. -/
def implementedMethods : InstallerClass → List Capability
  | InstallerClass.FTPInstaller => fullCapabilitySet
  | InstallerClass.SFTPInstaller => fullCapabilitySet
  | InstallerClass.NFSInstaller => fullCapabilitySet
  | InstallerClass.SMBInstaller => fullCapabilitySet
  | InstallerClass.WebDAVInstaller => fullCapabilitySet
  | InstallerClass.S3Installer => fullCapabilitySet
  | InstallerClass.NextCloudInstaller => fullCapabilitySet

/-- The NFS stub plugin (src/backend/installers/nfs.py): every lifecycle
method deterministically returns false and `get_status` reports not
running. -/
def nfsInstaller : Installer :=
  { detect_existing := Except.ok (false, none)
    install_packages := Except.ok false
    configure := fun _ => Except.ok false
    start_service := Except.ok false
    stop_service := Except.ok false
    restart_service := Except.ok false
    get_status := Except.ok { is_running := false, pid := none, uptime_seconds := none }
    uninstall := Except.ok false }

/-- Result of a completed child process, as captured by `subprocess.run`
with `capture_output=True, text=True`. -/
structure CompletedProcess where
  returncode : Int
  stdout : String
  stderr : String
deriving DecidableEq, Repr

/-- Outcome of attempting to spawn a command: the process completed (with
some exit status), or spawning itself failed (for example the binary does not
exist). -/
inductive SpawnResult where
  | completed (r : CompletedProcess)
  | spawnError (e : String)
deriving DecidableEq, Repr

/-- Python exceptions relevant to the command executor:
`subprocess.CalledProcessError` carries the completed process (exit status
and captured output); any other exception is carried as text. -/
inductive PyExc where
  | calledProcessError (r : CompletedProcess)
  | otherError (e : String)
deriving DecidableEq, Repr

/-- Behaviour of `subprocess.run(command, capture_output=True, text=True,
check=check)`: a spawn failure raises; with `check` set, a non-zero exit
status raises `CalledProcessError`; otherwise the completed process is
returned.  The host is abstracted by the spawn outcome for each argument
vector. -/
def subprocess_run (spawn : List String → SpawnResult) (command : List String)
    (check : Bool) : Except PyExc CompletedProcess :=
  match spawn command with
  | SpawnResult.spawnError e => Except.error (PyExc.otherError e)
  | SpawnResult.completed r =>
    if check ∧ r.returncode ≠ 0 then
      Except.error (PyExc.calledProcessError r)
    else
      Except.ok r

/-- The command executor `ProtocolInstaller.run_command`
(src/backend/installers/base.py, lines 119-141): it runs the command and
returns `(True, stdout, stderr)`, catching only `CalledProcessError` — which
it converts to `(False, stdout, stderr)` from the error.  Exceptions other
than `CalledProcessError` (for example a spawn failure) propagate to the
caller. -/
def run_command (spawn : List String → SpawnResult) (command : List String)
    (check : Bool) : Except PyExc (Bool × String × String) :=
  match subprocess_run spawn command check with
  | Except.ok r => Except.ok (true, r.stdout, r.stderr)
  | Except.error (PyExc.calledProcessError e) =>
      Except.ok (false, e.stdout, e.stderr)
  | Except.error (PyExc.otherError e) => Except.error (PyExc.otherError e)

/-- The file-system facts `_find_command` consults
(src/backend/core/subprocess_patch.py): `shutil.which` over the process
`PATH`, `os.path.exists` and `os.access(..., X_OK)`. -/
structure FileSystem where
  which : String → Option String
  path_exists : String → Bool
  access_X_OK : String → Bool

/-- The fallback directory list `SYSTEM_PATHS`
(src/backend/core/subprocess_patch.py, line 17). -/
def SYSTEM_PATHS : List String :=
  ["/usr/bin", "/bin", "/usr/sbin", "/sbin", "/usr/local/bin"]

/-- Python `os.path.join(dir, name)` for the paths involved: an absolute
second component replaces the first, otherwise the components are joined with
a slash. -/
def os_path_join (dir name : String) : String :=
  match name.data with
  | [] => dir ++ "/"
  | c :: _ => if c = '/' then name else dir ++ "/" ++ name

/-- Whether a directory holds an existing executable file for `cmd`, the test
of the fallback loop in `_find_command`. -/
def hasExecutable (fs : FileSystem) (dir cmd : String) : Bool :=
  fs.path_exists (os_path_join dir cmd) && fs.access_X_OK (os_path_join dir cmd)

/-- The `_find_command` resolver (src/backend/core/subprocess_patch.py,
lines 20-36): `shutil.which` first; if that fails, the first directory of
`SYSTEM_PATHS` holding an existing executable match; if none does, the
original command name unchanged. -/
def find_command (fs : FileSystem) (cmd : String) : String :=
  match fs.which cmd with
  | some resolved => resolved
  | none =>
    match SYSTEM_PATHS.find? (fun dir => hasExecutable fs dir cmd) with
    | some dir => os_path_join dir cmd
    | none => cmd

/-- The `_patched_run` argument rewriting (src/backend/core/subprocess_patch.py,
lines 39-48): for a non-empty argument list, the first argument is replaced by
its resolution when that differs; otherwise the arguments pass through
unchanged to the original `subprocess.run`. -/
def patched_run_args (fs : FileSystem) (args : List String) : List String :=
  match args with
  | [] => args
  | original_cmd :: rest =>
    let resolved := find_command fs original_cmd
    if resolved ≠ original_cmd then resolved :: rest else original_cmd :: rest

/-- One observable mutation of a protocol record through the exposed
operations of src/backend/api/routes/protocols.py.  Install and uninstall
contribute two successors each: the synchronous route marks `INSTALLING` and
queues the background job (a step to the marked record), and the completed
job yields the task's result on the marked record.  The hypotheses on
`is_installed` state exactly when the route queues the job.  `get_protocol_status`
and the read routes persist nothing. -/
inductive Step : Protocol → Protocol → Prop where
  | install_accept (p : Protocol) (now : Nat) :
      Step p (install_protocol_route p now).1
  | install_job (p : Protocol) (inst : Installer) (t1 t2 : Nat)
      (h : p.is_installed = false) :
      Step p (install_task inst (install_protocol_route p t1).1 t2).1
  | start_op (p : Protocol) (inst : Installer) (now : Nat) :
      Step p (start_protocol_route inst p now).1
  | stop_op (p : Protocol) (inst : Installer) (now : Nat) :
      Step p (stop_protocol_route inst p now).1
  | restart_op (p : Protocol) (inst : Installer) (now : Nat) :
      Step p (restart_protocol_route inst p now).1
  | uninstall_accept (p : Protocol) (now : Nat) :
      Step p (uninstall_protocol_route p now).1
  | uninstall_job (p : Protocol) (inst : Installer) (t1 t2 : Nat)
      (h : p.is_installed = true) :
      Step p (uninstall_task inst (uninstall_protocol_route p t1).1 t2).1
  | config_op (p : Protocol) (inst : Installer) (upd : ProtocolUpdate) (now : Nat) :
      Step p (update_protocol_config_route inst p upd now).1
  | status_op (p : Protocol) : Step p p

/-- Protocol records reachable from the seeded catalog through the exposed
operations. -/
inductive Reachable : Protocol → Prop where
  | seed (p : Protocol) (h : p ∈ DEFAULT_PROTOCOLS) : Reachable p
  | step (p q : Protocol) (hp : Reachable p) (hs : Step p q) : Reachable q

/-! Concrete plugin behaviours and host environments used to evaluate the
operations on specific runs. -/

/-- A plugin run in which nothing is pre-installed and every step succeeds:
the concrete scenario of the spec's testable properties. -/
def goodInstaller : Installer :=
  { detect_existing := Except.ok (false, none)
    install_packages := Except.ok true
    configure := fun _ => Except.ok true
    start_service := Except.ok true
    stop_service := Except.ok true
    restart_service := Except.ok true
    get_status := Except.ok { is_running := true, pid := some 100, uptime_seconds := none }
    uninstall := Except.ok true }

/-- A plugin run in which `install_packages` returns false. -/
def pkgFailInstaller : Installer :=
  { goodInstaller with install_packages := Except.ok false }

/-- A plugin run in which `detect_existing` reports the software already
present. -/
def detectHitInstaller : Installer :=
  { goodInstaller with detect_existing := Except.ok (true, some "3.0.5") }

/-- A plugin run in which `configure` returns false. -/
def configFailInstaller : Installer :=
  { goodInstaller with configure := fun _ => Except.ok false }

/-- A record in the state an installed, running protocol has after a
successful install at time 2. -/
def runningFtp : Protocol :=
  { ftpSeed with
    is_installed := true
    is_enabled := true
    status := ProtocolStatus.RUNNING
    installed_at := some 2
    updated_at := 2 }

/-- A host on which spawning always completes with exit status 1. -/
def exitOneSpawn : List String → SpawnResult :=
  fun _ => SpawnResult.completed { returncode := 1, stdout := "out", stderr := "boom" }

/-- A host file system whose `PATH` resolves nothing and on which only
/usr/sbin/systemctl exists and is executable. -/
def sbinOnlyFS : FileSystem :=
  { which := fun _ => none
    path_exists := fun s => s == "/usr/sbin/systemctl"
    access_X_OK := fun s => s == "/usr/sbin/systemctl" }

/-- A host file system on which no command resolves at all. -/
def emptyFS : FileSystem :=
  { which := fun _ => none
    path_exists := fun _ => false
    access_X_OK := fun _ => false }

/-! Helper lemmas about the service-layer update functions. -/

theorem ups_status (p : Protocol) (s : ProtocolStatus) (ii ie : Option Bool)
    (em : Option String) (now : Nat) :
    (update_protocol_status p s ii ie em now).status = s := by
  unfold update_protocol_status
  cases ii <;> cases ie <;> dsimp only <;> split <;> rfl

theorem ups_is_installed (p : Protocol) (s : ProtocolStatus)
    (ii ie : Option Bool) (em : Option String) (now : Nat) :
    (update_protocol_status p s ii ie em now).is_installed =
      ii.getD p.is_installed := by
  unfold update_protocol_status
  cases ii <;> cases ie <;> dsimp only [Option.getD] <;> split <;> rfl

theorem ups_is_enabled (p : Protocol) (s : ProtocolStatus)
    (ii ie : Option Bool) (em : Option String) (now : Nat) :
    (update_protocol_status p s ii ie em now).is_enabled =
      ie.getD p.is_enabled := by
  unfold update_protocol_status
  cases ii <;> cases ie <;> dsimp only [Option.getD] <;> split <;> rfl

theorem ups_error_message (p : Protocol) (s : ProtocolStatus)
    (ii ie : Option Bool) (em : Option String) (now : Nat) :
    (update_protocol_status p s ii ie em now).error_message = em := by
  unfold update_protocol_status
  cases ii <;> cases ie <;> dsimp only <;> split <;> rfl

theorem ups_name (p : Protocol) (s : ProtocolStatus) (ii ie : Option Bool)
    (em : Option String) (now : Nat) :
    (update_protocol_status p s ii ie em now).name = p.name := by
  unfold update_protocol_status
  cases ii <;> cases ie <;> dsimp only <;> split <;> rfl

theorem ups_display_name (p : Protocol) (s : ProtocolStatus)
    (ii ie : Option Bool) (em : Option String) (now : Nat) :
    (update_protocol_status p s ii ie em now).display_name = p.display_name := by
  unfold update_protocol_status
  cases ii <;> cases ie <;> dsimp only <;> split <;> rfl

theorem ups_port (p : Protocol) (s : ProtocolStatus) (ii ie : Option Bool)
    (em : Option String) (now : Nat) :
    (update_protocol_status p s ii ie em now).port = p.port := by
  unfold update_protocol_status
  cases ii <;> cases ie <;> dsimp only <;> split <;> rfl

theorem ups_ssl_enabled (p : Protocol) (s : ProtocolStatus) (ii ie : Option Bool)
    (em : Option String) (now : Nat) :
    (update_protocol_status p s ii ie em now).ssl_enabled = p.ssl_enabled := by
  unfold update_protocol_status
  cases ii <;> cases ie <;> dsimp only <;> split <;> rfl

theorem ups_config_json (p : Protocol) (s : ProtocolStatus) (ii ie : Option Bool)
    (em : Option String) (now : Nat) :
    (update_protocol_status p s ii ie em now).config_json = p.config_json := by
  unfold update_protocol_status
  cases ii <;> cases ie <;> dsimp only <;> split <;> rfl

theorem upc_status (p : Protocol) (c : Option Config) (port : Option Nat)
    (ssl : Option Bool) (now : Nat) :
    (update_protocol_config_svc p c port ssl now).status = p.status := by
  unfold update_protocol_config_svc
  cases port <;> cases ssl <;> rfl

theorem upc_is_installed (p : Protocol) (c : Option Config) (port : Option Nat)
    (ssl : Option Bool) (now : Nat) :
    (update_protocol_config_svc p c port ssl now).is_installed = p.is_installed := by
  unfold update_protocol_config_svc
  cases port <;> cases ssl <;> rfl

/-! Structural lemmas about the background tasks and routes. -/

theorem install_task_static (inst : Installer) (p : Protocol) (now : Nat) :
    (install_task inst p now).1.name = p.name ∧
    (install_task inst p now).1.display_name = p.display_name ∧
    (install_task inst p now).1.port = p.port ∧
    (install_task inst p now).1.ssl_enabled = p.ssl_enabled ∧
    (install_task inst p now).1.config_json = p.config_json := by
  unfold install_task
  repeat' split
  all_goals
    simp [ups_name, ups_display_name, ups_port, ups_ssl_enabled, ups_config_json]

theorem install_task_inv (inst : Installer) (p : Protocol) (now : Nat) :
    (install_task inst p now).1.status = ProtocolStatus.RUNNING →
    (install_task inst p now).1.is_installed = true := by
  unfold install_task
  repeat' split
  all_goals simp [ups_status, ups_is_installed]

theorem uninstall_task_inv (inst : Installer) (p : Protocol) (now : Nat) :
    (uninstall_task inst p now).1.status = ProtocolStatus.ERROR ∨
    (uninstall_task inst p now).1.status = ProtocolStatus.UNINSTALLED := by
  unfold uninstall_task
  repeat' split
  all_goals simp [ups_status]

theorem config_route_persisted (inst : Installer) (p : Protocol)
    (upd : ProtocolUpdate) (now : Nat) :
    (update_protocol_config_route inst p upd now).1 =
      update_protocol_config_svc p (pyOrConfig upd.config_json p.config_json)
        (match upd.port with
          | some v => some v
          | none => p.port)
        (some (match upd.ssl_enabled with
          | some b => b
          | none => p.ssl_enabled)) now := by
  unfold update_protocol_config_route
  dsimp only
  repeat' split
  all_goals rfl

theorem find_first_match {α : Type} (f : α → Bool) (l1 l2 : List α) (a : α)
    (h1 : ∀ x ∈ l1, f x = false) (h2 : f a = true) :
    (l1 ++ a :: l2).find? f = some a := by
  induction l1 with
  | nil => simp [List.find?_cons_of_pos, h2]
  | cons b bs ih =>
    have hb : f b = false := h1 b (by simp)
    rw [List.cons_append, List.find?_cons_of_neg _ (by simp [hb])]
    exact ih (fun x hx => h1 x (List.mem_cons_of_mem b hx))

/-- The status invariant of C9 as a predicate on records. -/
def statusInv (p : Protocol) : Prop :=
  p.status = ProtocolStatus.RUNNING → p.is_installed = true

theorem install_route_inv (p : Protocol) (now : Nat) (hp : statusInv p) :
    statusInv (install_protocol_route p now).1 := by
  unfold install_protocol_route
  split
  · exact hp
  · intro hr
    simp [ups_status] at hr

theorem uninstall_route_inv (p : Protocol) (now : Nat) (hp : statusInv p) :
    statusInv (uninstall_protocol_route p now).1 := by
  unfold uninstall_protocol_route
  split
  · exact hp
  · intro hr
    simp [ups_status] at hr

theorem start_route_inv (inst : Installer) (p : Protocol) (now : Nat)
    (hp : statusInv p) : statusInv (start_protocol_route inst p now).1 := by
  unfold start_protocol_route
  split
  · exact hp
  · rename_i hni
    have hi : p.is_installed = true := by
      cases hb : p.is_installed
      · exact absurd hb hni
      · rfl
    split
    · intro _
      simp [ups_is_installed, hi]
    · exact hp
    · exact hp

theorem stop_route_inv (inst : Installer) (p : Protocol) (now : Nat)
    (hp : statusInv p) : statusInv (stop_protocol_route inst p now).1 := by
  unfold stop_protocol_route
  split
  · exact hp
  · split
    · intro hr
      simp [ups_status] at hr
    · exact hp
    · exact hp

theorem restart_route_inv (inst : Installer) (p : Protocol) (now : Nat)
    (hp : statusInv p) : statusInv (restart_protocol_route inst p now).1 := by
  unfold restart_protocol_route
  split
  · exact hp
  · rename_i hni
    have hi : p.is_installed = true := by
      cases hb : p.is_installed
      · exact absurd hb hni
      · rfl
    split
    · intro _
      simp [ups_is_installed, hi]
    · exact hp
    · exact hp

theorem config_route_inv (inst : Installer) (p : Protocol)
    (upd : ProtocolUpdate) (now : Nat) (hp : statusInv p) :
    statusInv (update_protocol_config_route inst p upd now).1 := by
  intro hr
  rw [config_route_persisted, upc_status] at hr
  rw [config_route_persisted, upc_is_installed]
  exact hp hr

/-! Claim theorems. -/

/-- C10: for every protocol record with `is_installed = false`, the status
route answers `UNINSTALLED` and not running — with no pid, uptime or error
detail and the stored port — regardless of the status value persisted in the
store (in particular for a record persisted as `ERROR` after a failed
install, or as `INSTALLING` while an install job is in flight). -/
theorem C10_not_installed_reported_uninstalled (inst : Installer) (p : Protocol)
    (h : p.is_installed = false) :
    get_protocol_status_route inst p =
      { protocol_name := p.name
        status := ProtocolStatus.UNINSTALLED
        is_running := false
        pid := none
        uptime_seconds := none
        error_message := none
        port := p.port } := by
  unfold get_protocol_status_route
  simp [h]

/-- Witness for C10: a seeded ftp record whose persisted status is `ERROR`
(as after a failed install) with `is_installed = false` is reported as
`UNINSTALLED`, not running. -/
theorem C10_not_installed_reported_uninstalled_witness :
    ({ ftpSeed with status := ProtocolStatus.ERROR } : Protocol).is_installed = false ∧
    get_protocol_status_route goodInstaller
        { ftpSeed with status := ProtocolStatus.ERROR } =
      { protocol_name := "ftp"
        status := ProtocolStatus.UNINSTALLED
        is_running := false
        pid := none
        uptime_seconds := none
        error_message := none
        port := some 21 } := by
  refine ⟨rfl, ?_⟩
  rw [C10_not_installed_reported_uninstalled goodInstaller
    { ftpSeed with status := ProtocolStatus.ERROR } rfl]
  rfl

/-- C6: an install on a not-installed protocol whose plugin reports the
software already present terminates with persisted status `STOPPED` and
`is_installed = true`, and the plugin's `install_packages` is never
invoked. -/
theorem C6_detect_existing_skips_packages (inst : Installer) (p : Protocol)
    (v : Option String) (t1 t2 : Nat)
    (hp : p.is_installed = false)
    (hd : inst.detect_existing = Except.ok (true, v)) :
    (install_task inst (install_protocol_route p t1).1 t2).1.status =
        ProtocolStatus.STOPPED ∧
    (install_task inst (install_protocol_route p t1).1 t2).1.is_installed = true ∧
    PluginCall.installPackages ∉
      (install_task inst (install_protocol_route p t1).1 t2).2 := by
  unfold install_protocol_route install_task
  simp [hp, hd, ups_status, ups_is_installed]

/-- Witness for C6: the seeded ftp record with a plugin whose
`detect_existing` reports version 3.0.5 already installed. -/
theorem C6_detect_existing_skips_packages_witness :
    ftpSeed.is_installed = false ∧
    detectHitInstaller.detect_existing = Except.ok (true, some "3.0.5") ∧
    (install_task detectHitInstaller (install_protocol_route ftpSeed 1).1 2).1.status =
        ProtocolStatus.STOPPED ∧
    (install_task detectHitInstaller (install_protocol_route ftpSeed 1).1 2).1.is_installed = true ∧
    PluginCall.installPackages ∉
      (install_task detectHitInstaller (install_protocol_route ftpSeed 1).1 2).2 := by
  refine ⟨rfl, rfl, ?_⟩
  exact C6_detect_existing_skips_packages detectHitInstaller ftpSeed
    (some "3.0.5") 1 2 rfl rfl

/-- C7 counterexample: a command run with `check = false` that exits with
status 1 is reported to the caller as `success = true` (with the captured
output), refuting the claim that every non-zero exit is reported as
`success = false`.  This is how `is_service_running` and `enable_service`
invoke the executor. -/
theorem C7_counterexample_check_false :
    exitOneSpawn ["systemctl", "is-active", "vsftpd"] =
      SpawnResult.completed { returncode := 1, stdout := "out", stderr := "boom" } ∧
    run_command exitOneSpawn ["systemctl", "is-active", "vsftpd"] false =
      Except.ok (true, "out", "boom") := ⟨rfl, rfl⟩

/-- C7 (amended): for every argument vector executed with `check = true`
(the default) whose spawned command exits with a non-zero status, the result
is reported as `success = false` together with the captured stdout and
stderr, and no exception propagates to the caller; with `check = false` a
non-zero exit is instead reported as `success = true` with the captured
output. -/
theorem C7_nonzero_exit_reporting (spawn : List String → SpawnResult)
    (command : List String) (r : CompletedProcess)
    (hs : spawn command = SpawnResult.completed r)
    (hr : r.returncode ≠ 0) :
    run_command spawn command true = Except.ok (false, r.stdout, r.stderr) ∧
    run_command spawn command false = Except.ok (true, r.stdout, r.stderr) := by
  unfold run_command subprocess_run
  rw [hs]
  simp [hr]

/-- Witness for C7 (amended): the host completing every spawn with exit
status 1. -/
theorem C7_nonzero_exit_reporting_witness :
    exitOneSpawn ["apt-get", "install", "-y", "vsftpd"] =
      SpawnResult.completed { returncode := 1, stdout := "out", stderr := "boom" } ∧
    run_command exitOneSpawn ["apt-get", "install", "-y", "vsftpd"] true =
      Except.ok (false, "out", "boom") ∧
    run_command exitOneSpawn ["apt-get", "install", "-y", "vsftpd"] false =
      Except.ok (true, "out", "boom") := by
  refine ⟨rfl, ?_⟩
  exact C7_nonzero_exit_reporting exitOneSpawn
    ["apt-get", "install", "-y", "vsftpd"]
    { returncode := 1, stdout := "out", stderr := "boom" } rfl (by decide)

/-- C8: the first argument of every command execution is resolved first
against the process `PATH` (`shutil.which`); if not found there, against the
fallback directories /usr/bin, /bin, /usr/sbin, /sbin, /usr/local/bin in that
order, taking the first existing executable match; and when no resolution
succeeds the original name is passed to the underlying execution
unchanged. -/
theorem C8_command_path_resolution (fs : FileSystem) (cmd : String) :
    (∀ r, fs.which cmd = some r → find_command fs cmd = r) ∧
    (∀ l1 dir l2, fs.which cmd = none →
        SYSTEM_PATHS = l1 ++ dir :: l2 →
        (∀ d ∈ l1, hasExecutable fs d cmd = false) →
        hasExecutable fs dir cmd = true →
        find_command fs cmd = os_path_join dir cmd) ∧
    (fs.which cmd = none →
        (∀ d ∈ SYSTEM_PATHS, hasExecutable fs d cmd = false) →
        find_command fs cmd = cmd ∧
        ∀ rest, patched_run_args fs (cmd :: rest) = cmd :: rest) := by
  refine ⟨?_, ?_, ?_⟩
  · intro r hr
    unfold find_command
    rw [hr]
  · intro l1 dir l2 hw hsys h1 h2
    unfold find_command
    rw [hw, hsys, find_first_match _ l1 l2 dir h1 h2]
  · intro hw hall
    have hnone : SYSTEM_PATHS.find? (fun dir => hasExecutable fs dir cmd) = none :=
      List.find?_eq_none.mpr (fun d hd => by simp [hall d hd])
    have hfind : find_command fs cmd = cmd := by
      unfold find_command
      rw [hw, hnone]
    refine ⟨hfind, fun rest => ?_⟩
    unfold patched_run_args
    simp [hfind]

/-- Witness for C8: on a host whose `PATH` resolves nothing and where only
/usr/sbin/systemctl exists and is executable, systemctl resolves to
/usr/sbin/systemctl (skipping /usr/bin and /bin); on a host with nothing at
all, the argument vector passes through unchanged. -/
theorem C8_command_path_resolution_witness :
    find_command sbinOnlyFS "systemctl" = "/usr/sbin/systemctl" ∧
    patched_run_args emptyFS ["doesnotexist", "status"] = ["doesnotexist", "status"] := by
  constructor
  · exact (C8_command_path_resolution sbinOnlyFS "systemctl").2.1
      ["/usr/bin", "/bin"] "/usr/sbin" ["/sbin", "/usr/local/bin"]
      rfl rfl (by decide) (by decide)
  · exact ((C8_command_path_resolution emptyFS "doesnotexist").2.2
      rfl (by decide)).2 ["status"]

/-- C2 counterexample: installing the seeded ftp protocol with a plugin whose
`install_packages` returns false reaches exactly the scenario of the claim —
the job terminates with persisted status `ERROR` and `is_installed = false` —
but the persisted `error_message` is `none`, not a non-empty message,
refuting the claim. -/
theorem C2_counterexample_no_error_message :
    pkgFailInstaller.install_packages = Except.ok false ∧
    (install_task pkgFailInstaller (install_protocol_route ftpSeed 1).1 2).1.status =
        ProtocolStatus.ERROR ∧
    (install_task pkgFailInstaller (install_protocol_route ftpSeed 1).1 2).1.is_installed =
        false ∧
    (install_task pkgFailInstaller (install_protocol_route ftpSeed 1).1 2).1.error_message =
        none := ⟨rfl, by decide, by decide, by decide⟩

/-- C2 (amended): for every install job reaching the install-packages step
whose plugin's `install_packages` returns false, the job terminates with
persisted status `ERROR` and `is_installed = false`, and the persisted
`error_message` is cleared to `none` — no error message is recorded on the
protocol record. -/
theorem C2_install_packages_failure (inst : Installer) (p : Protocol)
    (v : Option String) (t1 t2 : Nat)
    (hp : p.is_installed = false)
    (hd : inst.detect_existing = Except.ok (false, v))
    (hpk : inst.install_packages = Except.ok false) :
    (install_task inst (install_protocol_route p t1).1 t2).1.status =
        ProtocolStatus.ERROR ∧
    (install_task inst (install_protocol_route p t1).1 t2).1.is_installed = false ∧
    (install_task inst (install_protocol_route p t1).1 t2).1.error_message = none := by
  unfold install_protocol_route install_task
  simp [hp, hd, hpk, ups_status, ups_is_installed, ups_error_message]

/-- Witness for C2 (amended): the seeded ftp record with the
package-failure plugin. -/
theorem C2_install_packages_failure_witness :
    ftpSeed.is_installed = false ∧
    pkgFailInstaller.detect_existing = Except.ok (false, none) ∧
    pkgFailInstaller.install_packages = Except.ok false ∧
    ((install_task pkgFailInstaller (install_protocol_route ftpSeed 3).1 4).1.status =
        ProtocolStatus.ERROR ∧
     (install_task pkgFailInstaller (install_protocol_route ftpSeed 3).1 4).1.is_installed =
        false ∧
     (install_task pkgFailInstaller (install_protocol_route ftpSeed 3).1 4).1.error_message =
        none) := by
  refine ⟨rfl, rfl, rfl, ?_⟩
  exact C2_install_packages_failure pkgFailInstaller ftpSeed none 3 4 rfl rfl rfl

/-- C3 counterexample: updating the configuration of an installed, `RUNNING`
protocol with a plugin whose `configure` returns false leaves the persisted
status `RUNNING` — not `ERROR` as the claim states — and makes no restart
call (the trace is the single configure call); the failure is only reported
to the caller as an HTTP 500. -/
theorem C3_counterexample_no_error_status :
    runningFtp.is_installed = true ∧
    runningFtp.status = ProtocolStatus.RUNNING ∧
    (update_protocol_config_route configFailInstaller runningFtp
        { config_json := some [("anonymous_enable", "NO")], port := none, ssl_enabled := none }
        5).1.status = ProtocolStatus.RUNNING ∧
    (update_protocol_config_route configFailInstaller runningFtp
        { config_json := some [("anonymous_enable", "NO")], port := none, ssl_enabled := none }
        5).2.2 = [PluginCall.configureCall] ∧
    ¬ (update_protocol_config_route configFailInstaller runningFtp
        { config_json := some [("anonymous_enable", "NO")], port := none, ssl_enabled := none }
        5).1.status = ProtocolStatus.ERROR :=
  ⟨rfl, rfl, by decide, by decide, by decide⟩

/-- C3 (amended): for every installed protocol in status `RUNNING`, a call to
updateConfig performs exactly one `configure` call on the plugin and, when it
succeeds, exactly one `restart` call afterwards, before returning; the
persisted status remains `RUNNING` both on success and when the configure
step fails — a configure failure is reported to the caller as an
ApplyFailure (HTTP 500), and no `ERROR` status is persisted. -/
theorem C3_update_config_running (inst : Installer) (p : Protocol)
    (upd : ProtocolUpdate) (now : Nat)
    (hi : p.is_installed = true)
    (hs : p.status = ProtocolStatus.RUNNING) :
    (update_protocol_config_route inst p upd now).1.status =
        ProtocolStatus.RUNNING ∧
    (inst.configure (pyOrConfig upd.config_json p.config_json) = Except.ok true →
        (update_protocol_config_route inst p upd now).2.2 =
          [PluginCall.configureCall, PluginCall.restartService]) ∧
    (inst.configure (pyOrConfig upd.config_json p.config_json) = Except.ok false →
        (update_protocol_config_route inst p upd now).2.2 =
          [PluginCall.configureCall] ∧
        (update_protocol_config_route inst p upd now).2.1 =
          Except.error "Failed to reconfigure: 500: Failed to apply new configuration") := by
  refine ⟨?_, ?_, ?_⟩
  · rw [config_route_persisted, upc_status, hs]
  · intro hc
    unfold update_protocol_config_route
    dsimp only
    rw [hc]
    simp [hi, hs]
    split <;> rfl
  · intro hc
    unfold update_protocol_config_route
    dsimp only
    rw [hc]
    simp [hi, hs]

/-- Witness for C3 (amended): the running ftp record, once with the
all-success plugin and once with the configure-failure plugin. -/
theorem C3_update_config_running_witness :
    (update_protocol_config_route goodInstaller runningFtp
        { config_json := none, port := some 2121, ssl_enabled := none } 6).1.status =
      ProtocolStatus.RUNNING ∧
    (update_protocol_config_route goodInstaller runningFtp
        { config_json := none, port := some 2121, ssl_enabled := none } 6).2.2 =
      [PluginCall.configureCall, PluginCall.restartService] ∧
    (update_protocol_config_route configFailInstaller runningFtp
        { config_json := none, port := some 2121, ssl_enabled := none } 6).2.2 =
      [PluginCall.configureCall] := by
  refine ⟨(C3_update_config_running goodInstaller runningFtp
      { config_json := none, port := some 2121, ssl_enabled := none } 6 rfl rfl).1,
    (C3_update_config_running goodInstaller runningFtp
      { config_json := none, port := some 2121, ssl_enabled := none } 6 rfl rfl).2.1 rfl,
    ((C3_update_config_running configFailInstaller runningFtp
      { config_json := none, port := some 2121, ssl_enabled := none } 6 rfl rfl).2.2 rfl).1⟩

/-- C4: every seeded protocol identifier resolves through the registry to an
installer class implementing the full capability set (stubs included), and
every identifier outside the registry map fails fast with the typed
"Unknown protocol" error rather than a generic lookup failure.  The WebDAV
and NextCloud plugin modules are modelled from the spec (see
`InstallerClass`). -/
theorem C4_registry_resolution :
    (∀ p ∈ DEFAULT_PROTOCOLS, ∃ c, get_protocol_installer p.name = Except.ok c ∧
        implementedMethods c = fullCapabilitySet) ∧
    (∀ protocol_name, installer_map.lookup protocol_name = none →
        get_protocol_installer protocol_name =
          Except.error ("Unknown protocol: " ++ protocol_name)) := by
  constructor
  · intro p hp
    fin_cases hp
    · exact ⟨InstallerClass.FTPInstaller, rfl, rfl⟩
    · exact ⟨InstallerClass.SFTPInstaller, rfl, rfl⟩
    · exact ⟨InstallerClass.NFSInstaller, rfl, rfl⟩
    · exact ⟨InstallerClass.SMBInstaller, rfl, rfl⟩
    · exact ⟨InstallerClass.WebDAVInstaller, rfl, rfl⟩
    · exact ⟨InstallerClass.S3Installer, rfl, rfl⟩
    · exact ⟨InstallerClass.NextCloudInstaller, rfl, rfl⟩
  · intro protocol_name h
    unfold get_protocol_installer
    rw [h]

/-- Witness for C4: "ftp" resolves to a full-contract installer class, and
the unknown identifier "gopher" fails with the typed error. -/
theorem C4_registry_resolution_witness :
    (∃ c, get_protocol_installer "ftp" = Except.ok c ∧
        implementedMethods c = fullCapabilitySet) ∧
    get_protocol_installer "gopher" = Except.error "Unknown protocol: gopher" := by
  constructor
  · exact C4_registry_resolution.1 ftpSeed (List.Mem.head _)
  · have h := C4_registry_resolution.2 "gopher" (by decide)
    simpa using h

/-- C1 counterexample: a second install request issued against the seeded
ftp protocol while the first request's job has not completed — the persisted
status is `INSTALLING` and `is_installed` is still false — is neither
rejected nor short-circuited: it is accepted and queues a second background
job, refuting the at-most-one-in-flight-operation claim. -/
theorem C1_counterexample_second_job :
    (install_protocol_route ftpSeed 1).2.2 = true ∧
    (install_protocol_route ftpSeed 1).1.status = ProtocolStatus.INSTALLING ∧
    (install_protocol_route ftpSeed 1).1.is_installed = false ∧
    (install_protocol_route (install_protocol_route ftpSeed 1).1 2).2.2 = true :=
  ⟨by decide, by decide, by decide, by decide⟩

/-- C1 (amended): the install route guards only on `is_installed`, not on an
in-flight operation: an install request on a record with
`is_installed = true` is short-circuited as a no-op success without queueing
a background job, while every install request on a record with
`is_installed = false` — including one whose persisted status is already
`INSTALLING` because an earlier job is still in flight — persists
`INSTALLING` and queues a (further) background job. -/
theorem C1_install_guard_is_installed_only (p : Protocol) (now : Nat) :
    (p.is_installed = true →
        install_protocol_route p now =
          (p, ApiResp.ok (p.display_name ++ " is already installed"), false)) ∧
    (p.is_installed = false →
        (install_protocol_route p now).1.status = ProtocolStatus.INSTALLING ∧
        (install_protocol_route p now).1.is_installed = false ∧
        (install_protocol_route p now).2.2 = true) := by
  constructor
  · intro h
    unfold install_protocol_route
    simp [h]
  · intro h
    unfold install_protocol_route
    simp [h, ups_status, ups_is_installed]

/-- Witness for C1 (amended): the seeded ftp record marked `INSTALLING` by a
first request still queues a job for a second request, and the running ftp
record gets the no-op success. -/
theorem C1_install_guard_is_installed_only_witness :
    ((install_protocol_route ftpSeed 1).1.is_installed = false ∧
      (install_protocol_route (install_protocol_route ftpSeed 1).1 2).2.2 = true) ∧
    (runningFtp.is_installed = true ∧
      install_protocol_route runningFtp 3 =
        (runningFtp, ApiResp.ok "FTP/FTPS is already installed", false)) := by
  constructor
  · refine ⟨by decide, ?_⟩
    exact ((C1_install_guard_is_installed_only (install_protocol_route ftpSeed 1).1 2).2
      (by decide)).2.2
  · refine ⟨rfl, ?_⟩
    have h := (C1_install_guard_is_installed_only runningFtp 3).1 rfl
    simpa using h

/-- C9: for every protocol record reachable from the seeded catalog through
any sequence of the exposed operations (install, start, stop, restart,
uninstall, updateConfig, getStatus, background jobs included), whenever the
persisted status is `RUNNING`, `is_installed` is true. -/
theorem C9_running_implies_installed (p : Protocol) (h : Reachable p) :
    p.status = ProtocolStatus.RUNNING → p.is_installed = true := by
  induction h with
  | seed q hq =>
    intro hs
    fin_cases hq <;> exact absurd hs (by decide)
  | step q r hq hstep ih =>
    cases hstep with
    | install_accept now => exact install_route_inv q now ih
    | install_job inst t1 t2 h2 =>
        exact install_task_inv inst (install_protocol_route q t1).1 t2
    | start_op inst now => exact start_route_inv inst q now ih
    | stop_op inst now => exact stop_route_inv inst q now ih
    | restart_op inst now => exact restart_route_inv inst q now ih
    | uninstall_accept now => exact uninstall_route_inv q now ih
    | uninstall_job inst t1 t2 h2 =>
        intro hr
        rcases uninstall_task_inv inst (uninstall_protocol_route q t1).1 t2 with
          he | he <;> rw [hr] at he <;> cases he
    | config_op inst upd now => exact config_route_inv inst q upd now ih
    | status_op => exact ih

/-- Witness for C9: the state reached from the seeded ftp record by an
accepted install followed by a fully successful install job is `RUNNING`,
and the theorem yields `is_installed = true` for it. -/
theorem C9_running_implies_installed_witness :
    (install_task goodInstaller (install_protocol_route ftpSeed 1).1 2).1.status =
        ProtocolStatus.RUNNING ∧
    (install_task goodInstaller (install_protocol_route ftpSeed 1).1 2).1.is_installed =
        true := by
  refine ⟨by decide, ?_⟩
  exact C9_running_implies_installed
    (install_task goodInstaller (install_protocol_route ftpSeed 1).1 2).1
    (Reachable.step ftpSeed _ (Reachable.seed ftpSeed (List.Mem.head _))
      (Step.install_job ftpSeed goodInstaller 1 2 rfl))
    (by decide)

/-- C5 counterexample: a full install of the seeded ftp record (reaching the
terminal state `RUNNING` at time 2) followed by a completed successful
uninstall brings status, `is_installed` and `is_enabled` back to the initial
values, but `installed_at` remains `some 2` while it was `none` before the
install — so the resulting record is not equal to the initial one, refuting
the field-for-field round-trip claim. -/
theorem C5_counterexample_installed_at :
    (uninstall_task goodInstaller
        (uninstall_protocol_route
          (install_task goodInstaller (install_protocol_route ftpSeed 1).1 2).1 3).1
        4).1.status = ProtocolStatus.UNINSTALLED ∧
    (uninstall_task goodInstaller
        (uninstall_protocol_route
          (install_task goodInstaller (install_protocol_route ftpSeed 1).1 2).1 3).1
        4).1.is_installed = false ∧
    (uninstall_task goodInstaller
        (uninstall_protocol_route
          (install_task goodInstaller (install_protocol_route ftpSeed 1).1 2).1 3).1
        4).1.is_enabled = false ∧
    (uninstall_task goodInstaller
        (uninstall_protocol_route
          (install_task goodInstaller (install_protocol_route ftpSeed 1).1 2).1 3).1
        4).1.installed_at = some 2 ∧
    ftpSeed.installed_at = none ∧
    (uninstall_task goodInstaller
        (uninstall_protocol_route
          (install_task goodInstaller (install_protocol_route ftpSeed 1).1 2).1 3).1
        4).1 ≠ ftpSeed :=
  ⟨by decide, by decide, by decide, by decide, by decide, by decide⟩

/-- C5 (amended): for every not-installed protocol record, an install that
terminates in a state with `is_installed = true` (already-present, running,
or installed-but-stopped) followed by a completed successful uninstall
returns status to `UNINSTALLED`, `is_installed` and `is_enabled` to false and
`error_message` to `none`, with the identity and configuration fields (name,
display name, port, ssl flag, stored configuration) equal to their
pre-install values; the timestamp fields (`installed_at`, `updated_at`) are
not restored, so the final record need not equal the initial record
field-for-field. -/
theorem C5_round_trip_modulo_timestamps (p : Protocol) (inst inst2 : Installer)
    (t1 t2 t3 t4 : Nat) (b : Bool)
    (hp : p.is_installed = false)
    (hq : (install_task inst (install_protocol_route p t1).1 t2).1.is_installed = true)
    (hstop : inst2.stop_service = Except.ok b)
    (hun : inst2.uninstall = Except.ok true) :
    (uninstall_task inst2
        (uninstall_protocol_route
          (install_task inst (install_protocol_route p t1).1 t2).1 t3).1 t4).1.status =
        ProtocolStatus.UNINSTALLED ∧
    (uninstall_task inst2
        (uninstall_protocol_route
          (install_task inst (install_protocol_route p t1).1 t2).1 t3).1 t4).1.is_installed =
        false ∧
    (uninstall_task inst2
        (uninstall_protocol_route
          (install_task inst (install_protocol_route p t1).1 t2).1 t3).1 t4).1.is_enabled =
        false ∧
    (uninstall_task inst2
        (uninstall_protocol_route
          (install_task inst (install_protocol_route p t1).1 t2).1 t3).1 t4).1.error_message =
        none ∧
    (uninstall_task inst2
        (uninstall_protocol_route
          (install_task inst (install_protocol_route p t1).1 t2).1 t3).1 t4).1.name =
        p.name ∧
    (uninstall_task inst2
        (uninstall_protocol_route
          (install_task inst (install_protocol_route p t1).1 t2).1 t3).1 t4).1.display_name =
        p.display_name ∧
    (uninstall_task inst2
        (uninstall_protocol_route
          (install_task inst (install_protocol_route p t1).1 t2).1 t3).1 t4).1.port =
        p.port ∧
    (uninstall_task inst2
        (uninstall_protocol_route
          (install_task inst (install_protocol_route p t1).1 t2).1 t3).1 t4).1.ssl_enabled =
        p.ssl_enabled ∧
    (uninstall_task inst2
        (uninstall_protocol_route
          (install_task inst (install_protocol_route p t1).1 t2).1 t3).1 t4).1.config_json =
        p.config_json := by
  have hmark : (install_protocol_route p t1).1 =
      update_protocol_status p ProtocolStatus.INSTALLING none none none t1 := by
    unfold install_protocol_route
    simp [hp]
  have hroute : (uninstall_protocol_route
      (install_task inst (install_protocol_route p t1).1 t2).1 t3).1 =
      update_protocol_status
        (install_task inst (install_protocol_route p t1).1 t2).1
        ProtocolStatus.INSTALLING none none none t3 := by
    unfold uninstall_protocol_route
    simp [hq]
  have htask : (uninstall_task inst2
      (uninstall_protocol_route
        (install_task inst (install_protocol_route p t1).1 t2).1 t3).1 t4).1 =
      update_protocol_status
        (update_protocol_status
          (install_task inst (install_protocol_route p t1).1 t2).1
          ProtocolStatus.INSTALLING none none none t3)
        ProtocolStatus.UNINSTALLED (some false) (some false) none t4 := by
    rw [hroute]
    unfold uninstall_task
    rw [hstop, hun]
  obtain ⟨hn, hd, hpo, hss, hc⟩ :=
    install_task_static inst (install_protocol_route p t1).1 t2
  rw [htask]
  simp only [hmark] at hn hd hpo hss hc ⊢
  simp [ups_status, ups_is_installed, ups_is_enabled, ups_error_message,
    ups_name, ups_display_name, ups_port, ups_ssl_enabled, ups_config_json,
    hn, hd, hpo, hss, hc]

/-- Witness for C5 (amended): the seeded ftp record with the all-success
plugin for both the install and the uninstall. -/
theorem C5_round_trip_modulo_timestamps_witness :
    ftpSeed.is_installed = false ∧
    (install_task goodInstaller (install_protocol_route ftpSeed 1).1 2).1.is_installed =
        true ∧
    ((uninstall_task goodInstaller
        (uninstall_protocol_route
          (install_task goodInstaller (install_protocol_route ftpSeed 1).1 2).1 3).1
        4).1.status = ProtocolStatus.UNINSTALLED ∧
      (uninstall_task goodInstaller
        (uninstall_protocol_route
          (install_task goodInstaller (install_protocol_route ftpSeed 1).1 2).1 3).1
        4).1.name = "ftp") := by
  refine ⟨rfl, by decide, ?_, ?_⟩
  · exact (C5_round_trip_modulo_timestamps ftpSeed goodInstaller goodInstaller
      1 2 3 4 true rfl (by decide) rfl rfl).1
  · have h := (C5_round_trip_modulo_timestamps ftpSeed goodInstaller goodInstaller
      1 2 3 4 true rfl (by decide) rfl rfl).2.2.2.2.1
    simpa [ftpSeed, defaultProtocol] using h

end FileServer
